import Mathlib

/-!
Verification of the FolderAnalyser directory-analysis engine.

Shallow embedding of `src/dir_analyzer.py` (and the configuration defaults of
`src/configuration.py`).  Filesystem effects are made explicit: each visited
file carries the outcomes of the individual system calls the Python code
performs on it (`os.stat`, `magic.from_file`, `mimetypes.guess_type`,
`os.path.getsize` — the last one is called twice, once during mimetype
accounting and once during the size check, so both outcomes are recorded).
`none` models the corresponding `OSError` / `magic.MagicException`.
Machine integers do not overflow here (Python ints are unbounded), so counters
are `Nat`; the size threshold is a `ℚ` because the Python code receives a
float and multiplies it by `2 ** 30` exactly (binary scaling of a float is
exact) before an exact int/float comparison.
-/

namespace FolderAnalyser

/-- Mirrors `stat.S_IWOTH` = 0o002. -/
def S_IWOTH : Nat := 2

/-- Mirrors `stat.S_ISUID` = 0o4000. -/
def S_ISUID : Nat := 2048

/-- Mirrors `stat.S_ISGID` = 0o2000. -/
def S_ISGID : Nat := 1024

/-- Character-list prefix test: `strStarts s p` is true iff `p` is a
string-prefix of `s`.  This is the semantics of the Python method str.startswith. -/
def strStarts : List Char → List Char → Bool
  | _, [] => true
  | [], _ :: _ => false
  | c :: cs, d :: ds => c == d && strStarts cs ds

/-- Embeds `mime_type.startswith(storage.tag)` from `dir_analyzer.py` line 124. -/
def tagMatch (mime_type tag : String) : Bool :=
  strStarts mime_type.data tag.data

/-- Embeds the `FiletypeInfoStorage` dataclass (`dir_analyzer.py` lines 20-36).
`found_files` and `found_size` behave as per-instance counters starting at 0. -/
structure FiletypeInfoStorage where
  tag : String
  displayable_name : String
  found_files : Nat := 0
  found_size : Nat := 0
  found_files_paths : List String := []
  deriving DecidableEq

/-- The `storage.found_files += 1; storage.found_size += file_size` update used
by `analyze_files_mimetype` (lines 121-122, 125-126, 128-129). -/
def addFile (s : FiletypeInfoStorage) (file_size : Nat) : FiletypeInfoStorage :=
  { s with found_files := s.found_files + 1, found_size := s.found_size + file_size }

/-- The world-writable warning f-string of lines 146 and 169, quotes included. -/
def wwWarning (p : String) : String := "WARNING: world-writable - \x27" ++ p ++ "\x27"

/-- The SUID warning f-string of line 149, quotes included. -/
def suidWarning (p : String) : String := "WARNING: SUID is set - \x27" ++ p ++ "\x27"

/-- The SGID warning f-string of line 152, quotes included. -/
def sgidWarning (p : String) : String := "WARNING: SGID bit set - \x27" ++ p ++ "\x27"

/-- Embeds `analyze_file_permissions` (lines 133-154) applied to the mode bits
returned by `os.stat`.  The three `if`s sequentially overwrite
`warning_message`, exactly as in the source. -/
def analyze_file_permissions (file_path : String) (mode : Nat) : Option String :=
  let warning_message : Option String := none
  let warning_message := if mode &&& S_IWOTH ≠ 0 then some (wwWarning file_path) else warning_message
  let warning_message := if mode &&& S_ISUID ≠ 0 then some (suidWarning file_path) else warning_message
  let warning_message := if mode &&& S_ISGID ≠ 0 then some (sgidWarning file_path) else warning_message
  warning_message

/-- Embeds `analyze_dir_permissions` (lines 157-170): directories are checked
only for the world-writable bit. -/
def analyze_dir_permissions (dir_path : String) (mode : Nat) : Option String :=
  let warning_message : Option String := none
  let warning_message := if mode &&& S_IWOTH ≠ 0 then some (wwWarning dir_path) else warning_message
  warning_message

/-- The `for storage in result_storages.values():` loop of
`analyze_files_mimetype` (lines 123-127): the first storage whose tag is a
string-prefix of the mimetype is updated and the loop returns (`true`); if no
storage matches, the list is returned unchanged (`false`).  The Python dict
iterates in insertion order, modelled by the list order. -/
def bucketFirstMatch (mime_type : String) (file_size : Nat) :
    List FiletypeInfoStorage → List FiletypeInfoStorage × Bool
  | [] => ([], false)
  | storage :: rest =>
    if tagMatch mime_type storage.tag then
      (addFile storage file_size :: rest, true)
    else
      let r := bucketFirstMatch mime_type file_size rest
      (storage :: r.1, r.2)

/-- Embeds the counting part of `analyze_files_mimetype` (lines 121-130),
after the mimetype has been resolved and the size read (lines 114-120; those
two fallible steps are modelled at the per-file level, see `processFile`).
Totals are updated first, then the first matching category, else `other`. -/
def analyze_files_mimetype (mime_type : String) (file_size : Nat)
    (result_storages : List FiletypeInfoStorage)
    (others_storage totals_storage : FiletypeInfoStorage) :
    List FiletypeInfoStorage × FiletypeInfoStorage × FiletypeInfoStorage :=
  let totals := addFile totals_storage file_size
  let r := bucketFirstMatch mime_type file_size result_storages
  if r.2 then (r.1, others_storage, totals)
  else (r.1, addFile others_storage file_size, totals)

/-- Embeds `analyze_filesize` (lines 173-194): the threshold arrives in GiB
and the comparison is `file_size > size_threshold * (2**30)`, strict. -/
def analyze_filesize (file_path : String) (file_size : Nat)
    (bigfiles_storage : FiletypeInfoStorage) (size_threshold : ℚ) : FiletypeInfoStorage :=
  if (file_size : ℚ) > size_threshold * 2 ^ 30 then
    { bigfiles_storage with
        found_files := bigfiles_storage.found_files + 1,
        found_size := bigfiles_storage.found_size + file_size,
        found_files_paths := bigfiles_storage.found_files_paths ++ [file_path] }
  else bigfiles_storage

/-- One file as visited by the walk, with the outcome of every system call the
per-file sequence performs on it.  `none` models the raised exception. -/
structure FileEntry where
  path : String
  statResult : Option Nat
  magicResult : Option String
  guessResult : Option String
  sizeResult1 : Option Nat
  sizeResult2 : Option Nat
  deriving DecidableEq

/-- One directory as listed inside its parent, with the outcome of `os.stat`. -/
structure DirEntry where
  path : String
  statResult : Option Nat
  deriving DecidableEq

/-- Lines 114-119 of `analyze_files_mimetype`: thorough mode asks `magic`
(fallible), fast mode asks `mimetypes.guess_type` (pure on the path string,
`None` is replaced by the empty string). -/
def resolveMime (thorough : Bool) (f : FileEntry) : Option String :=
  if thorough then f.magicResult else some (f.guessResult.getD "")

/-- The mutable accumulation state threaded through `analyze_filesystem`. -/
structure ScanState where
  result_storages : List FiletypeInfoStorage
  others_storage : FiletypeInfoStorage
  totals_storage : FiletypeInfoStorage
  bigfiles_storage : FiletypeInfoStorage
  permission_warnings : List String
  errors : Nat
  deriving DecidableEq

/-- The loop body of `analyze_directories` (lines 209-218): stat the
directory; on `OSError` count one error, otherwise append any warning. -/
def processDir (st : ScanState) (d : DirEntry) : ScanState :=
  match d.statResult with
  | none => { st with errors := st.errors + 1 }
  | some mode =>
    match analyze_dir_permissions d.path mode with
    | some w => { st with permission_warnings := st.permission_warnings ++ [w] }
    | none => st

/-- Embeds `analyze_directories` (lines 197-218) over the `dirs` of one walk
triple. -/
def analyze_directories (st : ScanState) (dirs : List DirEntry) : ScanState :=
  dirs.foldl processDir st

/-- The `try` body of `analyze_files` (lines 247-261) for one file: permission
inspection, then mimetype classification (mime resolution and `getsize`
happen inside `analyze_files_mimetype` before any counter is touched), then
the size check (which calls `getsize` again).  The first failing call aborts
the remaining checks of that file and counts one error. -/
def processFile (thorough : Bool) (size_threshold : ℚ) (st : ScanState) (f : FileEntry) : ScanState :=
  match f.statResult with
  | none => { st with errors := st.errors + 1 }
  | some mode =>
    let st1 :=
      match analyze_file_permissions f.path mode with
      | some w => { st with permission_warnings := st.permission_warnings ++ [w] }
      | none => st
    match resolveMime thorough f with
    | none => { st1 with errors := st1.errors + 1 }
    | some mime_type =>
      match f.sizeResult1 with
      | none => { st1 with errors := st1.errors + 1 }
      | some file_size =>
        let r := analyze_files_mimetype mime_type file_size
          st1.result_storages st1.others_storage st1.totals_storage
        let st2 := { st1 with result_storages := r.1,
                              others_storage := r.2.1,
                              totals_storage := r.2.2 }
        match f.sizeResult2 with
        | none => { st2 with errors := st2.errors + 1 }
        | some size2 =>
          { st2 with bigfiles_storage :=
              analyze_filesize f.path size2 st2.bigfiles_storage size_threshold }

/-- Embeds `analyze_files` (lines 221-262) over the `files` of one walk triple. -/
def analyze_files (thorough : Bool) (size_threshold : ℚ)
    (st : ScanState) (files : List FileEntry) : ScanState :=
  files.foldl (processFile thorough size_threshold) st

/-- One `(root, dirs, files)` triple yielded by `os.walk`. -/
structure WalkTriple where
  dirs : List DirEntry
  files : List FileEntry
  deriving DecidableEq

/-- The body of the `for root, dirs, files in os.walk(...)` loop of
`analyze_filesystem` (lines 326-335): directories first, then files. -/
def processTriple (thorough : Bool) (size_threshold : ℚ)
    (st : ScanState) (t : WalkTriple) : ScanState :=
  analyze_files thorough size_threshold (analyze_directories st t.dirs) t.files

/-- Lines 295-297: one storage per configured searchable type, in
configuration (dict insertion) order; a config entry is `(name, tag)`. -/
def initStorages (cfg : List (String × String)) : List FiletypeInfoStorage :=
  cfg.map (fun c => { tag := c.2, displayable_name := c.1 })

/-- Lines 295-302: the initial accumulation state of `analyze_filesystem`. -/
def initState (cfg : List (String × String)) : ScanState :=
  { result_storages := initStorages cfg,
    others_storage := { tag := "None", displayable_name := "Other" },
    totals_storage := { tag := "None", displayable_name := "Total" },
    bigfiles_storage := { tag := "None", displayable_name := "Big" },
    permission_warnings := [],
    errors := 0 }

/-- Embeds `analyze_filesystem` (lines 265-344) applied to the triples the
walk yields, in visitation order. -/
def analyze_filesystem (cfg : List (String × String)) (thorough : Bool)
    (size_threshold : ℚ) (walk_output : List WalkTriple) : ScanState :=
  walk_output.foldl (processTriple thorough size_threshold) (initState cfg)

/-- The default `searchable_types` of `configuration.py` (lines 21-38). -/
def defaultConfig : List (String × String) :=
  [("Image", "image/"), ("Text", "text/"), ("Audio", "audio/"),
   ("Video", "video/"), ("Application", "application/")]

/-- A directory tree as seen by `os.walk`: the entry by which the directory is
listed inside its parent, whether `os.scandir` succeeds on it, its
subdirectories and its files.  `os.walk` is called with the default
`onerror=None`, under which a failing `scandir` is silently ignored: the
directory yields no triple and its subtree is never visited (CPython
`Lib/os.py`, `walk`). -/
inductive FSTree : Type where
  | dir : DirEntry → Bool → List FSTree → List FileEntry → FSTree

/-- The entry by which this directory appears in the `dirs` list of its parent. -/
def FSTree.entry : FSTree → DirEntry
  | .dir d _ _ _ => d

/-- Whether `os.scandir` succeeds on this directory. -/
def FSTree.readable : FSTree → Bool
  | .dir _ r _ _ => r

/-- The `(root, dirs, files)` triples `os.walk` yields, top-down and
depth-first, with the default `onerror=None` semantics. -/
def FSTree.walk : FSTree → List WalkTriple
  | .dir _ readable subdirs files =>
    if readable then
      { dirs := subdirs.map FSTree.entry, files := files } ::
        (subdirs.attach.map (fun s => FSTree.walk s.1)).flatten
    else []
decreasing_by
  have := List.sizeOf_lt_of_mem s.2
  simp only [FSTree.dir.sizeOf_spec]
  omega

/-- The warning `analyze_files` appends for one file: present exactly when
`os.stat` succeeds and `analyze_file_permissions` reports one. -/
def specWarningsOfFile (f : FileEntry) : List String :=
  match f.statResult with
  | none => []
  | some mode =>
    match analyze_file_permissions f.path mode with
    | some w => [w]
    | none => []

/-- The warning `analyze_directories` appends for one listed directory. -/
def specWarningsOfDir (d : DirEntry) : List String :=
  match d.statResult with
  | none => []
  | some mode =>
    match analyze_dir_permissions d.path mode with
    | some w => [w]
    | none => []

/-- All warnings one walk triple contributes, in visitation order
(directories first, then files, as in the loop body). -/
def specWarningsOfTriple (t : WalkTriple) : List String :=
  (t.dirs.map specWarningsOfDir).flatten ++ (t.files.map specWarningsOfFile).flatten

/-- The size under which a file is classified, when it is classified without
error: `os.stat`, mime resolution and the first `getsize` all succeed. -/
def classifiedSize (thorough : Bool) (f : FileEntry) : Option Nat :=
  match f.statResult, resolveMime thorough f, f.sizeResult1 with
  | some _, some _, some file_size => some file_size
  | _, _, _ => none

/-- 1 if the file is classified without error, else 0. -/
def clsCount (thorough : Bool) (f : FileEntry) : Nat :=
  match classifiedSize thorough f with
  | some _ => 1
  | none => 0

/-- The classified size, or 0 if the file errors before classification. -/
def clsSizeVal (thorough : Bool) (f : FileEntry) : Nat :=
  (classifiedSize thorough f).getD 0

/-- Sizes of all files a scan classifies without error, in visitation order. -/
def classifiedSizes (thorough : Bool) (walk_output : List WalkTriple) : List Nat :=
  (walk_output.map (fun t => t.files.filterMap (classifiedSize thorough))).flatten

/-- The `(path, size)` pair the oversized bucket receives for one file:
present exactly when every per-file step succeeds and the second `getsize`
result strictly exceeds the byte threshold. -/
def oversizedOfFile (thorough : Bool) (size_threshold : ℚ) (f : FileEntry) :
    List (String × Nat) :=
  match f.statResult, resolveMime thorough f, f.sizeResult1, f.sizeResult2 with
  | some _, some _, some _, some size2 =>
    if (size2 : ℚ) > size_threshold * 2 ^ 30 then [(f.path, size2)] else []
  | _, _, _, _ => []

/-- Oversized pairs one walk triple contributes, in visitation order. -/
def oversizedOfTriple (thorough : Bool) (size_threshold : ℚ) (t : WalkTriple) :
    List (String × Nat) :=
  (t.files.map (oversizedOfFile thorough size_threshold)).flatten

/-- Oversized pairs of a whole scan, in visitation order. -/
def oversizedPairs (thorough : Bool) (size_threshold : ℚ)
    (walk_output : List WalkTriple) : List (String × Nat) :=
  (walk_output.map (oversizedOfTriple thorough size_threshold)).flatten

/-- Push a batch of oversized `(path, size)` pairs into a storage: counter,
byte total and path list move together. -/
def pushBig (b : FiletypeInfoStorage) (l : List (String × Nat)) : FiletypeInfoStorage :=
  { b with found_files := b.found_files + l.length,
           found_size := b.found_size + (l.map Prod.snd).sum,
           found_files_paths := b.found_files_paths ++ l.map Prod.fst }

/-- Whether some step of the per-file sequence raises. -/
def fileError (thorough : Bool) (f : FileEntry) : Bool :=
  f.statResult.isNone || (resolveMime thorough f).isNone ||
    f.sizeResult1.isNone || f.sizeResult2.isNone

/-- Whether the file errors before its classification completes. -/
def preClassifyError (thorough : Bool) (f : FileEntry) : Bool :=
  f.statResult.isNone || (resolveMime thorough f).isNone || f.sizeResult1.isNone

/-- How many of the three risky bits are set in a mode. -/
def riskyBitCount (mode : Nat) : Nat :=
  (if mode &&& S_IWOTH ≠ 0 then 1 else 0) + (if mode &&& S_ISUID ≠ 0 then 1 else 0) +
    (if mode &&& S_ISGID ≠ 0 then 1 else 0)

/-- Stated from the spec for comparison (§4.2): the warning of the
last-checked set bit in evaluation order world-writable → setuid → setgid. -/
def spec_lastCheckedWarning (file_path : String) (mode : Nat) : String :=
  if mode &&& S_ISGID ≠ 0 then sgidWarning file_path
  else if mode &&& S_ISUID ≠ 0 then suidWarning file_path
  else wwWarning file_path

/-- Sum of the per-category file counters. -/
def catFilesSum (l : List FiletypeInfoStorage) : Nat :=
  (l.map FiletypeInfoStorage.found_files).sum

/-- Sum of the per-category byte counters. -/
def catSizeSum (l : List FiletypeInfoStorage) : Nat :=
  (l.map FiletypeInfoStorage.found_size).sum

/-- The §3 invariant: totals equal the category sum plus `other`, for file
counts and for bytes. -/
def sumInvP (st : ScanState) : Prop :=
  st.totals_storage.found_files = catFilesSum st.result_storages + st.others_storage.found_files
    ∧ st.totals_storage.found_size = catSizeSum st.result_storages + st.others_storage.found_size

/-- The exit raised by `typer.secho` + `raise typer.Exit()`: `typer.Exit`
defaults to exit code 0 when no code is passed, as in `check_path` and
`check_size_threshold`. -/
structure MainExit where
  code : Nat
  message : String
  deriving DecidableEq

/-- Embeds `check_path` (lines 39-55) on the two facts it queries. -/
def check_path (path_exists path_is_dir : Bool) : Except MainExit Unit :=
  if path_exists = false then
    Except.error { code := 0, message := "Incorrect path - does not exist" }
  else if path_is_dir = false then
    Except.error { code := 0, message := "Incorrect path - should be a directory" }
  else Except.ok ()

/-- Embeds `check_size_threshold` (lines 58-71). -/
def check_size_threshold (size_threshold : ℚ) : Except MainExit Unit :=
  if size_threshold < 0 then
    Except.error { code := 0, message := "Incorrect size threshold - should not be negative" }
  else Except.ok ()

/-- Observable outcome of one `main` invocation: the process exit code, any
validation error printed, whether the walk ran, and which output files were
written. -/
structure MainOutcome where
  exit_code : Nat
  error_message : Option String
  traversed : Bool
  wrote_report_file : Bool
  wrote_bigfiles_file : Bool
  wrote_permissions_file : Bool
  scan : Option ScanState

/-- Embeds the control flow of `main` (lines 443-499): validation first
(`check_path`, then `check_size_threshold`), and only on success the walk,
the report, and the three output-file writes (the report file only under
`--to-file`). -/
def mainModel (path_exists path_is_dir : Bool) (cfg : List (String × String))
    (thorough to_file : Bool) (size_threshold : ℚ)
    (walk_output : List WalkTriple) : MainOutcome :=
  match check_path path_exists path_is_dir with
  | Except.error e =>
    { exit_code := e.code, error_message := some e.message, traversed := false,
      wrote_report_file := false, wrote_bigfiles_file := false,
      wrote_permissions_file := false, scan := none }
  | Except.ok _ =>
    match check_size_threshold size_threshold with
    | Except.error e =>
      { exit_code := e.code, error_message := some e.message, traversed := false,
        wrote_report_file := false, wrote_bigfiles_file := false,
        wrote_permissions_file := false, scan := none }
    | Except.ok _ =>
      let st := analyze_filesystem cfg thorough size_threshold walk_output
      { exit_code := 0, error_message := none, traversed := true,
        wrote_report_file := to_file, wrote_bigfiles_file := true,
        wrote_permissions_file := true, scan := some st }

/-! Helper lemmas. -/

theorem foldl_pres {α σ : Type} (step : σ → α → σ) (P : σ → Prop)
    (hstep : ∀ s a, P s → P (step s a)) :
    ∀ (l : List α) (s : σ), P s → P (l.foldl step s)
  | [], _, h => h
  | a :: l, s, h => foldl_pres step P hstep l (step s a) (hstep s a h)

theorem foldl_accumList {α σ β : Type} (step : σ → α → σ) (proj : σ → List β)
    (g : α → List β) (hstep : ∀ s a, proj (step s a) = proj s ++ g a) :
    ∀ (l : List α) (s : σ), proj (l.foldl step s) = proj s ++ (l.map g).flatten := by
  intro l
  induction l with
  | nil => intro s; simp
  | cons a l ih =>
    intro s
    rw [List.foldl_cons, ih, hstep]
    simp

theorem foldl_accumNat {α σ : Type} (step : σ → α → σ) (proj : σ → Nat)
    (g : α → Nat) (hstep : ∀ s a, proj (step s a) = proj s + g a) :
    ∀ (l : List α) (s : σ), proj (l.foldl step s) = proj s + (l.map g).sum := by
  intro l
  induction l with
  | nil => intro s; simp
  | cons a l ih =>
    intro s
    rw [List.foldl_cons, ih, hstep]
    simp [Nat.add_assoc]

theorem pushBig_nil (b : FiletypeInfoStorage) : pushBig b [] = b := by
  simp [pushBig]

theorem pushBig_append (b : FiletypeInfoStorage) (l1 l2 : List (String × Nat)) :
    pushBig (pushBig b l1) l2 = pushBig b (l1 ++ l2) := by
  simp [pushBig, Nat.add_assoc]

theorem foldl_pushBig {α σ : Type} (step : σ → α → σ)
    (proj : σ → FiletypeInfoStorage) (g : α → List (String × Nat))
    (hstep : ∀ s a, proj (step s a) = pushBig (proj s) (g a)) :
    ∀ (l : List α) (s : σ), proj (l.foldl step s) = pushBig (proj s) ((l.map g).flatten) := by
  intro l
  induction l with
  | nil => intro s; simp [pushBig_nil]
  | cons a l ih =>
    intro s
    rw [List.foldl_cons, ih, hstep, pushBig_append]
    simp

theorem addFile_found_files (s : FiletypeInfoStorage) (sz : Nat) :
    (addFile s sz).found_files = s.found_files + 1 := rfl

theorem addFile_found_size (s : FiletypeInfoStorage) (sz : Nat) :
    (addFile s sz).found_size = s.found_size + sz := rfl

theorem addFile_paths (s : FiletypeInfoStorage) (sz : Nat) :
    (addFile s sz).found_files_paths = s.found_files_paths := rfl

theorem catFilesSum_cons (a : FiletypeInfoStorage) (l : List FiletypeInfoStorage) :
    catFilesSum (a :: l) = a.found_files + catFilesSum l := by
  simp [catFilesSum]

theorem catSizeSum_cons (a : FiletypeInfoStorage) (l : List FiletypeInfoStorage) :
    catSizeSum (a :: l) = a.found_size + catSizeSum l := by
  simp [catSizeSum]

theorem tagMatch_empty_eq_false (tag : String) (h : tag ≠ "") :
    tagMatch "" tag = false := by
  cases tag with
  | mk data =>
    cases data with
    | nil => exact absurd rfl h
    | cons c cs => rfl

theorem bucket_map_inv {γ : Type} (f : FiletypeInfoStorage → γ)
    (hf : ∀ s sz, f (addFile s sz) = f s) (m : String) (sz : Nat)
    (l : List FiletypeInfoStorage) :
    (bucketFirstMatch m sz l).1.map f = l.map f := by
  induction l with
  | nil => rfl
  | cons s rest ih =>
    by_cases hm : tagMatch m s.tag <;> simp [bucketFirstMatch, hm, hf, ih]

theorem bucket_catFilesSum (m : String) (sz : Nat) (l : List FiletypeInfoStorage) :
    catFilesSum (bucketFirstMatch m sz l).1
      = catFilesSum l + (if (bucketFirstMatch m sz l).2 then 1 else 0) := by
  induction l with
  | nil => simp [bucketFirstMatch, catFilesSum]
  | cons s rest ih =>
    by_cases hm : tagMatch m s.tag
    · simp [bucketFirstMatch, hm, catFilesSum_cons, addFile_found_files]
      omega
    · simp only [bucketFirstMatch, hm, Bool.false_eq_true, if_false]
      cases hr : (bucketFirstMatch m sz rest).2 <;>
        simp [hr, catFilesSum_cons] at ih ⊢ <;> omega

theorem bucket_catSizeSum (m : String) (sz : Nat) (l : List FiletypeInfoStorage) :
    catSizeSum (bucketFirstMatch m sz l).1
      = catSizeSum l + (if (bucketFirstMatch m sz l).2 then sz else 0) := by
  induction l with
  | nil => simp [bucketFirstMatch, catSizeSum]
  | cons s rest ih =>
    by_cases hm : tagMatch m s.tag
    · simp [bucketFirstMatch, hm, catSizeSum_cons, addFile_found_size]
      omega
    · simp only [bucketFirstMatch, hm, Bool.false_eq_true, if_false]
      cases hr : (bucketFirstMatch m sz rest).2 <;>
        simp [hr, catSizeSum_cons] at ih ⊢ <;> omega

theorem bucket_no_match (m : String) (sz : Nat) (l : List FiletypeInfoStorage)
    (h : ∀ s ∈ l, tagMatch m s.tag = false) :
    bucketFirstMatch m sz l = (l, false) := by
  induction l with
  | nil => rfl
  | cons s rest ih =>
    have hs := h s (List.mem_cons_self s rest)
    have hrest := ih (fun u hu => h u (List.mem_cons_of_mem s hu))
    simp [bucketFirstMatch, hs, hrest]

theorem bucket_first_match (m : String) (sz : Nat) (l : List FiletypeInfoStorage)
    (h : ∃ s ∈ l, tagMatch m s.tag = true) :
    ∃ pre s post, l = pre ++ s :: post
      ∧ (∀ u ∈ pre, tagMatch m u.tag = false)
      ∧ tagMatch m s.tag = true
      ∧ bucketFirstMatch m sz l = (pre ++ addFile s sz :: post, true) := by
  induction l with
  | nil => simp at h
  | cons a rest ih =>
    by_cases ha : tagMatch m a.tag
    · exact ⟨[], a, rest, by simp, by simp, ha, by simp [bucketFirstMatch, ha]⟩
    · have hrest : ∃ s ∈ rest, tagMatch m s.tag = true := by
        rcases h with ⟨s, hmem, hs⟩
        rcases List.mem_cons.mp hmem with heq | hmem2
        · exact absurd (heq ▸ hs) (by simp [ha])
        · exact ⟨s, hmem2, hs⟩
      rcases ih hrest with ⟨pre, s, post, hsplit, hpre, hs, hres⟩
      refine ⟨a :: pre, s, post, by simp [hsplit], ?_, hs, ?_⟩
      · intro u hu
        rcases List.mem_cons.mp hu with heq | hmem2
        · simpa [heq] using ha
        · exact hpre u hmem2
      · simp [bucketFirstMatch, ha, hres]

theorem amt_fst (m : String) (sz : Nat) (rs : List FiletypeInfoStorage)
    (o t : FiletypeInfoStorage) :
    (analyze_files_mimetype m sz rs o t).1 = (bucketFirstMatch m sz rs).1 := by
  simp only [analyze_files_mimetype]
  split <;> rfl

theorem amt_totals (m : String) (sz : Nat) (rs : List FiletypeInfoStorage)
    (o t : FiletypeInfoStorage) :
    (analyze_files_mimetype m sz rs o t).2.2 = addFile t sz := by
  simp only [analyze_files_mimetype]
  split <;> rfl

theorem amt_others_paths (m : String) (sz : Nat) (rs : List FiletypeInfoStorage)
    (o t : FiletypeInfoStorage) :
    (analyze_files_mimetype m sz rs o t).2.1.found_files_paths = o.found_files_paths := by
  simp only [analyze_files_mimetype]
  split <;> rfl

theorem amt_sum_files (m : String) (sz : Nat) (rs : List FiletypeInfoStorage)
    (o t : FiletypeInfoStorage) :
    catFilesSum (analyze_files_mimetype m sz rs o t).1
        + (analyze_files_mimetype m sz rs o t).2.1.found_files
      = catFilesSum rs + o.found_files + 1 := by
  have hb := bucket_catFilesSum m sz rs
  simp only [analyze_files_mimetype]
  cases hr : (bucketFirstMatch m sz rs).2 <;>
    simp [hr, addFile_found_files] at hb ⊢ <;> omega

theorem amt_sum_size (m : String) (sz : Nat) (rs : List FiletypeInfoStorage)
    (o t : FiletypeInfoStorage) :
    catSizeSum (analyze_files_mimetype m sz rs o t).1
        + (analyze_files_mimetype m sz rs o t).2.1.found_size
      = catSizeSum rs + o.found_size + sz := by
  have hb := bucket_catSizeSum m sz rs
  simp only [analyze_files_mimetype]
  cases hr : (bucketFirstMatch m sz rs).2 <;>
    simp [hr, addFile_found_size] at hb ⊢ <;> omega

theorem processDir_result_storages (st : ScanState) (d : DirEntry) :
    (processDir st d).result_storages = st.result_storages := by
  cases hd : d.statResult with
  | none => simp [processDir, hd]
  | some mode => cases hw : analyze_dir_permissions d.path mode <;> simp [processDir, hd, hw]

theorem processDir_others (st : ScanState) (d : DirEntry) :
    (processDir st d).others_storage = st.others_storage := by
  cases hd : d.statResult with
  | none => simp [processDir, hd]
  | some mode => cases hw : analyze_dir_permissions d.path mode <;> simp [processDir, hd, hw]

theorem processDir_totals (st : ScanState) (d : DirEntry) :
    (processDir st d).totals_storage = st.totals_storage := by
  cases hd : d.statResult with
  | none => simp [processDir, hd]
  | some mode => cases hw : analyze_dir_permissions d.path mode <;> simp [processDir, hd, hw]

theorem processDir_big (st : ScanState) (d : DirEntry) :
    (processDir st d).bigfiles_storage = st.bigfiles_storage := by
  cases hd : d.statResult with
  | none => simp [processDir, hd]
  | some mode => cases hw : analyze_dir_permissions d.path mode <;> simp [processDir, hd, hw]

theorem processDir_warnings (st : ScanState) (d : DirEntry) :
    (processDir st d).permission_warnings
      = st.permission_warnings ++ specWarningsOfDir d := by
  cases hd : d.statResult with
  | none => simp [processDir, specWarningsOfDir, hd]
  | some mode =>
    cases hw : analyze_dir_permissions d.path mode <;>
      simp [processDir, specWarningsOfDir, hd, hw]

theorem processFile_warnings (thorough : Bool) (thr : ℚ) (st : ScanState) (f : FileEntry) :
    (processFile thorough thr st f).permission_warnings
      = st.permission_warnings ++ specWarningsOfFile f := by
  cases hs : f.statResult with
  | none => simp [processFile, specWarningsOfFile, hs]
  | some mode =>
    cases hw : analyze_file_permissions f.path mode <;>
      cases hm : resolveMime thorough f <;>
        cases h1 : f.sizeResult1 <;>
          cases h2 : f.sizeResult2 <;>
            simp [processFile, specWarningsOfFile, hs, hw, hm, h1, h2]

theorem processFile_totals_files (thorough : Bool) (thr : ℚ) (st : ScanState) (f : FileEntry) :
    (processFile thorough thr st f).totals_storage.found_files
      = st.totals_storage.found_files + clsCount thorough f := by
  cases hs : f.statResult with
  | none => simp [processFile, clsCount, classifiedSize, hs]
  | some mode =>
    cases hw : analyze_file_permissions f.path mode <;>
      cases hm : resolveMime thorough f <;>
        cases h1 : f.sizeResult1 <;>
          cases h2 : f.sizeResult2 <;>
            simp [processFile, clsCount, classifiedSize, hs, hw, hm, h1, h2,
              amt_totals, addFile_found_files]

theorem processFile_totals_size (thorough : Bool) (thr : ℚ) (st : ScanState) (f : FileEntry) :
    (processFile thorough thr st f).totals_storage.found_size
      = st.totals_storage.found_size + clsSizeVal thorough f := by
  cases hs : f.statResult with
  | none => simp [processFile, clsSizeVal, classifiedSize, hs]
  | some mode =>
    cases hw : analyze_file_permissions f.path mode <;>
      cases hm : resolveMime thorough f <;>
        cases h1 : f.sizeResult1 <;>
          cases h2 : f.sizeResult2 <;>
            simp [processFile, clsSizeVal, classifiedSize, hs, hw, hm, h1, h2,
              amt_totals, addFile_found_size]

theorem processFile_cats_files (thorough : Bool) (thr : ℚ) (st : ScanState) (f : FileEntry) :
    catFilesSum (processFile thorough thr st f).result_storages
        + (processFile thorough thr st f).others_storage.found_files
      = catFilesSum st.result_storages + st.others_storage.found_files
          + clsCount thorough f := by
  cases hs : f.statResult with
  | none => simp [processFile, clsCount, classifiedSize, hs]
  | some mode =>
    cases hw : analyze_file_permissions f.path mode <;>
      cases hm : resolveMime thorough f <;>
        cases h1 : f.sizeResult1 <;>
          cases h2 : f.sizeResult2 <;>
            simp [processFile, clsCount, classifiedSize, hs, hw, hm, h1, h2, amt_sum_files]

theorem processFile_cats_size (thorough : Bool) (thr : ℚ) (st : ScanState) (f : FileEntry) :
    catSizeSum (processFile thorough thr st f).result_storages
        + (processFile thorough thr st f).others_storage.found_size
      = catSizeSum st.result_storages + st.others_storage.found_size
          + clsSizeVal thorough f := by
  cases hs : f.statResult with
  | none => simp [processFile, clsSizeVal, classifiedSize, hs]
  | some mode =>
    cases hw : analyze_file_permissions f.path mode <;>
      cases hm : resolveMime thorough f <;>
        cases h1 : f.sizeResult1 <;>
          cases h2 : f.sizeResult2 <;>
            simp [processFile, clsSizeVal, classifiedSize, hs, hw, hm, h1, h2, amt_sum_size]

theorem processFile_big (thorough : Bool) (thr : ℚ) (st : ScanState) (f : FileEntry) :
    (processFile thorough thr st f).bigfiles_storage
      = pushBig st.bigfiles_storage (oversizedOfFile thorough thr f) := by
  cases hs : f.statResult with
  | none => simp [processFile, oversizedOfFile, hs, pushBig_nil]
  | some mode =>
    cases hm : resolveMime thorough f with
    | none =>
      cases hw : analyze_file_permissions f.path mode <;>
        simp [processFile, oversizedOfFile, hs, hm, hw, pushBig_nil]
    | some mime =>
      cases h1 : f.sizeResult1 with
      | none =>
        cases hw : analyze_file_permissions f.path mode <;>
          simp [processFile, oversizedOfFile, hs, hm, h1, hw, pushBig_nil]
      | some sz1 =>
        cases h2 : f.sizeResult2 with
        | none =>
          cases hw : analyze_file_permissions f.path mode <;>
            simp [processFile, oversizedOfFile, hs, hm, h1, h2, hw, pushBig_nil]
        | some size2 =>
          cases hw : analyze_file_permissions f.path mode <;>
            by_cases hbig : (size2 : ℚ) > thr * 2 ^ 30 <;>
              simp [processFile, oversizedOfFile, analyze_filesize, pushBig, pushBig_nil,
                hs, hm, h1, h2, hw, hbig]

theorem processFile_names (thorough : Bool) (thr : ℚ) (st : ScanState) (f : FileEntry) :
    (processFile thorough thr st f).result_storages.map FiletypeInfoStorage.displayable_name
      = st.result_storages.map FiletypeInfoStorage.displayable_name := by
  cases hs : f.statResult with
  | none => simp [processFile, hs]
  | some mode =>
    cases hw : analyze_file_permissions f.path mode <;>
      cases hm : resolveMime thorough f <;>
        cases h1 : f.sizeResult1 <;>
          cases h2 : f.sizeResult2 <;>
            simp [processFile, hs, hw, hm, h1, h2, amt_fst,
              bucket_map_inv FiletypeInfoStorage.displayable_name (fun _ _ => rfl)]

theorem processFile_tags (thorough : Bool) (thr : ℚ) (st : ScanState) (f : FileEntry) :
    (processFile thorough thr st f).result_storages.map FiletypeInfoStorage.tag
      = st.result_storages.map FiletypeInfoStorage.tag := by
  cases hs : f.statResult with
  | none => simp [processFile, hs]
  | some mode =>
    cases hw : analyze_file_permissions f.path mode <;>
      cases hm : resolveMime thorough f <;>
        cases h1 : f.sizeResult1 <;>
          cases h2 : f.sizeResult2 <;>
            simp [processFile, hs, hw, hm, h1, h2, amt_fst,
              bucket_map_inv FiletypeInfoStorage.tag (fun _ _ => rfl)]

theorem processFile_catPaths (thorough : Bool) (thr : ℚ) (st : ScanState) (f : FileEntry) :
    (processFile thorough thr st f).result_storages.map FiletypeInfoStorage.found_files_paths
      = st.result_storages.map FiletypeInfoStorage.found_files_paths := by
  cases hs : f.statResult with
  | none => simp [processFile, hs]
  | some mode =>
    cases hw : analyze_file_permissions f.path mode <;>
      cases hm : resolveMime thorough f <;>
        cases h1 : f.sizeResult1 <;>
          cases h2 : f.sizeResult2 <;>
            simp [processFile, hs, hw, hm, h1, h2, amt_fst,
              bucket_map_inv FiletypeInfoStorage.found_files_paths (fun _ _ => rfl)]

theorem processFile_othersPaths (thorough : Bool) (thr : ℚ) (st : ScanState) (f : FileEntry) :
    (processFile thorough thr st f).others_storage.found_files_paths
      = st.others_storage.found_files_paths := by
  cases hs : f.statResult with
  | none => simp [processFile, hs]
  | some mode =>
    cases hw : analyze_file_permissions f.path mode <;>
      cases hm : resolveMime thorough f <;>
        cases h1 : f.sizeResult1 <;>
          cases h2 : f.sizeResult2 <;>
            simp [processFile, hs, hw, hm, h1, h2, amt_others_paths]

theorem processFile_totalsPaths (thorough : Bool) (thr : ℚ) (st : ScanState) (f : FileEntry) :
    (processFile thorough thr st f).totals_storage.found_files_paths
      = st.totals_storage.found_files_paths := by
  cases hs : f.statResult with
  | none => simp [processFile, hs]
  | some mode =>
    cases hw : analyze_file_permissions f.path mode <;>
      cases hm : resolveMime thorough f <;>
        cases h1 : f.sizeResult1 <;>
          cases h2 : f.sizeResult2 <;>
            simp [processFile, hs, hw, hm, h1, h2, amt_totals, addFile_paths]

theorem analyze_directories_storages (st : ScanState) (dirs : List DirEntry) :
    (analyze_directories st dirs).result_storages = st.result_storages
      ∧ (analyze_directories st dirs).others_storage = st.others_storage
      ∧ (analyze_directories st dirs).totals_storage = st.totals_storage
      ∧ (analyze_directories st dirs).bigfiles_storage = st.bigfiles_storage := by
  refine foldl_pres processDir
    (fun s => s.result_storages = st.result_storages
      ∧ s.others_storage = st.others_storage
      ∧ s.totals_storage = st.totals_storage
      ∧ s.bigfiles_storage = st.bigfiles_storage) ?_ dirs st
    ⟨rfl, rfl, rfl, rfl⟩
  intro s d ⟨h1, h2, h3, h4⟩
  exact ⟨(processDir_result_storages s d).trans h1, (processDir_others s d).trans h2,
    (processDir_totals s d).trans h3, (processDir_big s d).trans h4⟩

theorem processTriple_warnings (thorough : Bool) (thr : ℚ) (st : ScanState) (t : WalkTriple) :
    (processTriple thorough thr st t).permission_warnings
      = st.permission_warnings ++ specWarningsOfTriple t := by
  have hd := foldl_accumList processDir (fun s => s.permission_warnings)
    specWarningsOfDir processDir_warnings t.dirs st
  have hf := foldl_accumList (processFile thorough thr) (fun s => s.permission_warnings)
    specWarningsOfFile (processFile_warnings thorough thr) t.files
    (analyze_directories st t.dirs)
  simp only [processTriple, analyze_files, analyze_directories] at hf hd ⊢
  rw [hf, hd, specWarningsOfTriple, List.append_assoc]

theorem processTriple_totals_files (thorough : Bool) (thr : ℚ) (st : ScanState) (t : WalkTriple) :
    (processTriple thorough thr st t).totals_storage.found_files
      = st.totals_storage.found_files + (t.files.map (clsCount thorough)).sum := by
  have hd := (analyze_directories_storages st t.dirs).2.2.1
  have hf := foldl_accumNat (processFile thorough thr)
    (fun s => s.totals_storage.found_files) (clsCount thorough)
    (processFile_totals_files thorough thr) t.files (analyze_directories st t.dirs)
  simp only [processTriple, analyze_files] at hf ⊢
  rw [hf, hd]

theorem processTriple_totals_size (thorough : Bool) (thr : ℚ) (st : ScanState) (t : WalkTriple) :
    (processTriple thorough thr st t).totals_storage.found_size
      = st.totals_storage.found_size + (t.files.map (clsSizeVal thorough)).sum := by
  have hd := (analyze_directories_storages st t.dirs).2.2.1
  have hf := foldl_accumNat (processFile thorough thr)
    (fun s => s.totals_storage.found_size) (clsSizeVal thorough)
    (processFile_totals_size thorough thr) t.files (analyze_directories st t.dirs)
  simp only [processTriple, analyze_files] at hf ⊢
  rw [hf, hd]

theorem processTriple_cats_files (thorough : Bool) (thr : ℚ) (st : ScanState) (t : WalkTriple) :
    catFilesSum (processTriple thorough thr st t).result_storages
        + (processTriple thorough thr st t).others_storage.found_files
      = catFilesSum st.result_storages + st.others_storage.found_files
          + (t.files.map (clsCount thorough)).sum := by
  have hd := analyze_directories_storages st t.dirs
  have hf := foldl_accumNat (processFile thorough thr)
    (fun s => catFilesSum s.result_storages + s.others_storage.found_files)
    (clsCount thorough) (processFile_cats_files thorough thr) t.files
    (analyze_directories st t.dirs)
  simp only [processTriple, analyze_files] at hf ⊢
  rw [hf, hd.1, hd.2.1]

theorem processTriple_cats_size (thorough : Bool) (thr : ℚ) (st : ScanState) (t : WalkTriple) :
    catSizeSum (processTriple thorough thr st t).result_storages
        + (processTriple thorough thr st t).others_storage.found_size
      = catSizeSum st.result_storages + st.others_storage.found_size
          + (t.files.map (clsSizeVal thorough)).sum := by
  have hd := analyze_directories_storages st t.dirs
  have hf := foldl_accumNat (processFile thorough thr)
    (fun s => catSizeSum s.result_storages + s.others_storage.found_size)
    (clsSizeVal thorough) (processFile_cats_size thorough thr) t.files
    (analyze_directories st t.dirs)
  simp only [processTriple, analyze_files] at hf ⊢
  rw [hf, hd.1, hd.2.1]

theorem processTriple_big (thorough : Bool) (thr : ℚ) (st : ScanState) (t : WalkTriple) :
    (processTriple thorough thr st t).bigfiles_storage
      = pushBig st.bigfiles_storage (oversizedOfTriple thorough thr t) := by
  have hd := (analyze_directories_storages st t.dirs).2.2.2
  have hf := foldl_pushBig (processFile thorough thr) (fun s => s.bigfiles_storage)
    (oversizedOfFile thorough thr) (processFile_big thorough thr) t.files
    (analyze_directories st t.dirs)
  simp only [processTriple, analyze_files] at hf ⊢
  rw [hf, hd, oversizedOfTriple]

theorem processTriple_names (thorough : Bool) (thr : ℚ) (st : ScanState) (t : WalkTriple) :
    (processTriple thorough thr st t).result_storages.map FiletypeInfoStorage.displayable_name
      = st.result_storages.map FiletypeInfoStorage.displayable_name := by
  have hd := (analyze_directories_storages st t.dirs).1
  have hf := foldl_pres (processFile thorough thr)
    (fun s => s.result_storages.map FiletypeInfoStorage.displayable_name
      = st.result_storages.map FiletypeInfoStorage.displayable_name)
    (fun s a h => (processFile_names thorough thr s a).trans h) t.files
    (analyze_directories st t.dirs) (by simp only [hd])
  simpa only [processTriple, analyze_files] using hf

theorem processTriple_tags (thorough : Bool) (thr : ℚ) (st : ScanState) (t : WalkTriple) :
    (processTriple thorough thr st t).result_storages.map FiletypeInfoStorage.tag
      = st.result_storages.map FiletypeInfoStorage.tag := by
  have hd := (analyze_directories_storages st t.dirs).1
  have hf := foldl_pres (processFile thorough thr)
    (fun s => s.result_storages.map FiletypeInfoStorage.tag
      = st.result_storages.map FiletypeInfoStorage.tag)
    (fun s a h => (processFile_tags thorough thr s a).trans h) t.files
    (analyze_directories st t.dirs) (by simp only [hd])
  simpa only [processTriple, analyze_files] using hf

theorem processTriple_catPaths (thorough : Bool) (thr : ℚ) (st : ScanState) (t : WalkTriple) :
    (processTriple thorough thr st t).result_storages.map FiletypeInfoStorage.found_files_paths
      = st.result_storages.map FiletypeInfoStorage.found_files_paths := by
  have hd := (analyze_directories_storages st t.dirs).1
  have hf := foldl_pres (processFile thorough thr)
    (fun s => s.result_storages.map FiletypeInfoStorage.found_files_paths
      = st.result_storages.map FiletypeInfoStorage.found_files_paths)
    (fun s a h => (processFile_catPaths thorough thr s a).trans h) t.files
    (analyze_directories st t.dirs) (by simp only [hd])
  simpa only [processTriple, analyze_files] using hf

theorem processTriple_othersPaths (thorough : Bool) (thr : ℚ) (st : ScanState) (t : WalkTriple) :
    (processTriple thorough thr st t).others_storage.found_files_paths
      = st.others_storage.found_files_paths := by
  have hd := (analyze_directories_storages st t.dirs).2.1
  have hf := foldl_pres (processFile thorough thr)
    (fun s => s.others_storage.found_files_paths = st.others_storage.found_files_paths)
    (fun s a h => (processFile_othersPaths thorough thr s a).trans h) t.files
    (analyze_directories st t.dirs) (by simp only [hd])
  simpa only [processTriple, analyze_files] using hf

theorem processTriple_totalsPaths (thorough : Bool) (thr : ℚ) (st : ScanState) (t : WalkTriple) :
    (processTriple thorough thr st t).totals_storage.found_files_paths
      = st.totals_storage.found_files_paths := by
  have hd := (analyze_directories_storages st t.dirs).2.2.1
  have hf := foldl_pres (processFile thorough thr)
    (fun s => s.totals_storage.found_files_paths = st.totals_storage.found_files_paths)
    (fun s a h => (processFile_totalsPaths thorough thr s a).trans h) t.files
    (analyze_directories st t.dirs) (by simp only [hd])
  simpa only [processTriple, analyze_files] using hf

theorem initStorages_names (cfg : List (String × String)) :
    (initStorages cfg).map FiletypeInfoStorage.displayable_name = cfg.map Prod.fst := by
  simp [initStorages, List.map_map]

theorem initStorages_tags (cfg : List (String × String)) :
    (initStorages cfg).map FiletypeInfoStorage.tag = cfg.map Prod.snd := by
  simp [initStorages, List.map_map]

theorem initStorages_paths (cfg : List (String × String)) :
    ∀ s ∈ initStorages cfg, s.found_files_paths = ([] : List String) := by
  intro s hs
  rcases List.mem_map.mp hs with ⟨c, hc, rfl⟩
  rfl

theorem paths_nil_of_map_eq {l1 l2 : List FiletypeInfoStorage}
    (hmap : l1.map FiletypeInfoStorage.found_files_paths
      = l2.map FiletypeInfoStorage.found_files_paths)
    (h2 : ∀ u ∈ l2, u.found_files_paths = ([] : List String)) :
    ∀ u ∈ l1, u.found_files_paths = ([] : List String) := by
  intro u hu
  have hmem : u.found_files_paths ∈ l1.map FiletypeInfoStorage.found_files_paths :=
    List.mem_map_of_mem _ hu
  rw [hmap] at hmem
  rcases List.mem_map.mp hmem with ⟨v, hv, he⟩
  rw [← he, h2 v hv]

theorem catFilesSum_init (cfg : List (String × String)) :
    catFilesSum (initStorages cfg) = 0 := by
  induction cfg with
  | nil => rfl
  | cons c rest ih => simpa [initStorages, catFilesSum_cons] using ih

theorem catSizeSum_init (cfg : List (String × String)) :
    catSizeSum (initStorages cfg) = 0 := by
  induction cfg with
  | nil => rfl
  | cons c rest ih => simpa [initStorages, catSizeSum_cons] using ih

theorem length_filterMap_classified (thorough : Bool) (files : List FileEntry) :
    (files.filterMap (classifiedSize thorough)).length
      = (files.map (clsCount thorough)).sum := by
  induction files with
  | nil => rfl
  | cons f rest ih =>
    cases hc : classifiedSize thorough f <;>
      simp [clsCount, hc, ih, Nat.add_comm]

theorem sum_filterMap_classified (thorough : Bool) (files : List FileEntry) :
    (files.filterMap (classifiedSize thorough)).sum
      = (files.map (clsSizeVal thorough)).sum := by
  induction files with
  | nil => rfl
  | cons f rest ih =>
    cases hc : classifiedSize thorough f <;>
      simp [clsSizeVal, hc, ih]

theorem scan_warnings (cfg : List (String × String)) (thorough : Bool) (thr : ℚ)
    (walk_output : List WalkTriple) :
    (analyze_filesystem cfg thorough thr walk_output).permission_warnings
      = (walk_output.map specWarningsOfTriple).flatten := by
  have h := foldl_accumList (processTriple thorough thr) (fun s => s.permission_warnings)
    specWarningsOfTriple (processTriple_warnings thorough thr) walk_output (initState cfg)
  simpa [analyze_filesystem, initState] using h

theorem scan_big (cfg : List (String × String)) (thorough : Bool) (thr : ℚ)
    (walk_output : List WalkTriple) :
    (analyze_filesystem cfg thorough thr walk_output).bigfiles_storage
      = pushBig (initState cfg).bigfiles_storage
          (oversizedPairs thorough thr walk_output) := by
  have h := foldl_pushBig (processTriple thorough thr) (fun s => s.bigfiles_storage)
    (oversizedOfTriple thorough thr) (processTriple_big thorough thr) walk_output
    (initState cfg)
  simpa [analyze_filesystem, oversizedPairs] using h

theorem scan_totals_files (cfg : List (String × String)) (thorough : Bool) (thr : ℚ)
    (walk_output : List WalkTriple) :
    (analyze_filesystem cfg thorough thr walk_output).totals_storage.found_files
      = (classifiedSizes thorough walk_output).length := by
  have h := foldl_accumNat (processTriple thorough thr)
    (fun s => s.totals_storage.found_files)
    (fun t => (t.files.map (clsCount thorough)).sum)
    (processTriple_totals_files thorough thr) walk_output (initState cfg)
  simp only [analyze_filesystem] at h ⊢
  rw [h]
  simp only [initState, classifiedSizes, List.length_flatten, List.map_map]
  rw [Nat.zero_add]
  exact congrArg List.sum
    (List.map_congr_left (fun t _ => (length_filterMap_classified thorough t.files).symm))

theorem scan_totals_size (cfg : List (String × String)) (thorough : Bool) (thr : ℚ)
    (walk_output : List WalkTriple) :
    (analyze_filesystem cfg thorough thr walk_output).totals_storage.found_size
      = (classifiedSizes thorough walk_output).sum := by
  have h := foldl_accumNat (processTriple thorough thr)
    (fun s => s.totals_storage.found_size)
    (fun t => (t.files.map (clsSizeVal thorough)).sum)
    (processTriple_totals_size thorough thr) walk_output (initState cfg)
  simp only [analyze_filesystem] at h ⊢
  rw [h]
  simp only [initState, classifiedSizes, List.sum_flatten, List.map_map]
  rw [Nat.zero_add]
  exact congrArg List.sum
    (List.map_congr_left (fun t _ => (sum_filterMap_classified thorough t.files).symm))

theorem scan_cats_files (cfg : List (String × String)) (thorough : Bool) (thr : ℚ)
    (walk_output : List WalkTriple) :
    catFilesSum (analyze_filesystem cfg thorough thr walk_output).result_storages
        + (analyze_filesystem cfg thorough thr walk_output).others_storage.found_files
      = (classifiedSizes thorough walk_output).length := by
  have h := foldl_accumNat (processTriple thorough thr)
    (fun s => catFilesSum s.result_storages + s.others_storage.found_files)
    (fun t => (t.files.map (clsCount thorough)).sum)
    (processTriple_cats_files thorough thr) walk_output (initState cfg)
  simp only [analyze_filesystem] at h ⊢
  rw [h]
  simp only [initState, classifiedSizes, List.length_flatten, List.map_map]
  rw [catFilesSum_init]
  simp only [Nat.zero_add]
  exact congrArg List.sum
    (List.map_congr_left (fun t _ => (length_filterMap_classified thorough t.files).symm))

theorem scan_cats_size (cfg : List (String × String)) (thorough : Bool) (thr : ℚ)
    (walk_output : List WalkTriple) :
    catSizeSum (analyze_filesystem cfg thorough thr walk_output).result_storages
        + (analyze_filesystem cfg thorough thr walk_output).others_storage.found_size
      = (classifiedSizes thorough walk_output).sum := by
  have h := foldl_accumNat (processTriple thorough thr)
    (fun s => catSizeSum s.result_storages + s.others_storage.found_size)
    (fun t => (t.files.map (clsSizeVal thorough)).sum)
    (processTriple_cats_size thorough thr) walk_output (initState cfg)
  simp only [analyze_filesystem] at h ⊢
  rw [h]
  simp only [initState, classifiedSizes, List.sum_flatten, List.map_map]
  rw [catSizeSum_init]
  simp only [Nat.zero_add]
  exact congrArg List.sum
    (List.map_congr_left (fun t _ => (sum_filterMap_classified thorough t.files).symm))

theorem scan_names (cfg : List (String × String)) (thorough : Bool) (thr : ℚ)
    (walk_output : List WalkTriple) :
    (analyze_filesystem cfg thorough thr walk_output).result_storages.map
        FiletypeInfoStorage.displayable_name
      = cfg.map Prod.fst := by
  have h := foldl_pres (processTriple thorough thr)
    (fun s => s.result_storages.map FiletypeInfoStorage.displayable_name = cfg.map Prod.fst)
    (fun s a hp => (processTriple_names thorough thr s a).trans hp) walk_output
    (initState cfg) (by simpa [initState] using initStorages_names cfg)
  simpa [analyze_filesystem] using h

theorem scan_tags (cfg : List (String × String)) (thorough : Bool) (thr : ℚ)
    (walk_output : List WalkTriple) :
    (analyze_filesystem cfg thorough thr walk_output).result_storages.map
        FiletypeInfoStorage.tag
      = cfg.map Prod.snd := by
  have h := foldl_pres (processTriple thorough thr)
    (fun s => s.result_storages.map FiletypeInfoStorage.tag = cfg.map Prod.snd)
    (fun s a hp => (processTriple_tags thorough thr s a).trans hp) walk_output
    (initState cfg) (by simpa [initState] using initStorages_tags cfg)
  simpa [analyze_filesystem] using h

theorem scan_catPaths (cfg : List (String × String)) (thorough : Bool) (thr : ℚ)
    (walk_output : List WalkTriple) :
    ∀ s ∈ (analyze_filesystem cfg thorough thr walk_output).result_storages,
      s.found_files_paths = ([] : List String) := by
  have h := foldl_pres (processTriple thorough thr)
    (fun s => ∀ u ∈ s.result_storages, u.found_files_paths = ([] : List String))
    (fun s a hp => paths_nil_of_map_eq (processTriple_catPaths thorough thr s a) hp)
    walk_output (initState cfg) (by simpa [initState] using initStorages_paths cfg)
  simpa [analyze_filesystem] using h

theorem scan_othersPaths (cfg : List (String × String)) (thorough : Bool) (thr : ℚ)
    (walk_output : List WalkTriple) :
    (analyze_filesystem cfg thorough thr walk_output).others_storage.found_files_paths
      = [] := by
  have h := foldl_pres (processTriple thorough thr)
    (fun s => s.others_storage.found_files_paths = [])
    (fun s a hp => (processTriple_othersPaths thorough thr s a).trans hp) walk_output
    (initState cfg) rfl
  simpa [analyze_filesystem] using h

theorem scan_totalsPaths (cfg : List (String × String)) (thorough : Bool) (thr : ℚ)
    (walk_output : List WalkTriple) :
    (analyze_filesystem cfg thorough thr walk_output).totals_storage.found_files_paths
      = [] := by
  have h := foldl_pres (processTriple thorough thr)
    (fun s => s.totals_storage.found_files_paths = [])
    (fun s a hp => (processTriple_totalsPaths thorough thr s a).trans hp) walk_output
    (initState cfg) rfl
  simpa [analyze_filesystem] using h

/-! Claim theorems. -/

/-- C1: for every completed scan, the totals counter equals the sum of the
configured category counters plus the `other` counter, for file counts and for
bytes; and the totals count exactly the files classified without error, so a
file that errors before classification completes is excluded from totals. -/
theorem c1_totals_invariant (cfg : List (String × String)) (thorough : Bool) (thr : ℚ)
    (walk_output : List WalkTriple) :
    sumInvP (analyze_filesystem cfg thorough thr walk_output)
      ∧ (analyze_filesystem cfg thorough thr walk_output).totals_storage.found_files
          = (classifiedSizes thorough walk_output).length
      ∧ (analyze_filesystem cfg thorough thr walk_output).totals_storage.found_size
          = (classifiedSizes thorough walk_output).sum := by
  refine ⟨⟨?_, ?_⟩, scan_totals_files cfg thorough thr walk_output,
    scan_totals_size cfg thorough thr walk_output⟩
  · rw [scan_totals_files, ← scan_cats_files cfg thorough thr walk_output]
  · rw [scan_totals_size, ← scan_cats_size cfg thorough thr walk_output]

/-- C2: a file whose mimetype is matched by more than one configured category
prefix updates exactly the first matching category in configuration order:
the categories before it (none matching) and after it are returned unchanged,
`other` is not updated, and totals are updated. -/
theorem c2_first_match_wins (mime_type : String) (file_size : Nat)
    (result_storages : List FiletypeInfoStorage) (others totals : FiletypeInfoStorage)
    (h : 2 ≤ (result_storages.filter (fun s => tagMatch mime_type s.tag)).length) :
    ∃ pre s post, result_storages = pre ++ s :: post
      ∧ (∀ u ∈ pre, tagMatch mime_type u.tag = false)
      ∧ tagMatch mime_type s.tag = true
      ∧ analyze_files_mimetype mime_type file_size result_storages others totals
          = (pre ++ addFile s file_size :: post, others, addFile totals file_size) := by
  have hex : ∃ s ∈ result_storages, tagMatch mime_type s.tag = true := by
    cases hf : result_storages.filter (fun s => tagMatch mime_type s.tag) with
    | nil => rw [hf] at h; simp at h
    | cons a rest =>
      have ha : a ∈ result_storages.filter (fun s => tagMatch mime_type s.tag) := by
        rw [hf]; exact List.mem_cons_self a rest
      have hm := List.mem_filter.mp ha
      exact ⟨a, hm.1, hm.2⟩
  rcases bucket_first_match mime_type file_size result_storages hex with
    ⟨pre, s, post, hsplit, hpre, hs, hres⟩
  exact ⟨pre, s, post, hsplit, hpre, hs, by simp [analyze_files_mimetype, hres]⟩

/-- C2 witness: `"image/png"` matches both configured prefixes `"image/"` and
`"image/p"`; only the first is updated. -/
theorem c2_first_match_wins_witness :
    ∃ pre s post,
      [({ tag := "image/", displayable_name := "A" } : FiletypeInfoStorage),
       { tag := "image/p", displayable_name := "B" }] = pre ++ s :: post
      ∧ (∀ u ∈ pre, tagMatch "image/png" u.tag = false)
      ∧ tagMatch "image/png" s.tag = true
      ∧ analyze_files_mimetype "image/png" 10
          [{ tag := "image/", displayable_name := "A" },
           { tag := "image/p", displayable_name := "B" }]
          { tag := "None", displayable_name := "Other" }
          { tag := "None", displayable_name := "Total" }
          = (pre ++ addFile s 10 :: post,
             { tag := "None", displayable_name := "Other" },
             addFile { tag := "None", displayable_name := "Total" } 10) :=
  c2_first_match_wins "image/png" 10
    [{ tag := "image/", displayable_name := "A" },
     { tag := "image/p", displayable_name := "B" }]
    { tag := "None", displayable_name := "Other" }
    { tag := "None", displayable_name := "Total" } (by decide)

/-- C3: when any step of the per-file sequence raises, the error counter is
incremented exactly once for that file, the oversized bucket is untouched; if
the failure happens before classification completes, no category, `other` or
totals counter changes; if `os.stat` itself failed, no warning is appended
either; and the loop simply continues with the remaining files. -/
theorem c3_error_isolation (thorough : Bool) (thr : ℚ) (st : ScanState) (f : FileEntry)
    (rest : List FileEntry) (h : fileError thorough f = true) :
    (processFile thorough thr st f).errors = st.errors + 1
    ∧ (processFile thorough thr st f).bigfiles_storage = st.bigfiles_storage
    ∧ (preClassifyError thorough f = false
        ∨ ((processFile thorough thr st f).result_storages = st.result_storages
            ∧ (processFile thorough thr st f).others_storage = st.others_storage
            ∧ (processFile thorough thr st f).totals_storage = st.totals_storage))
    ∧ (f.statResult.isSome = true
        ∨ (processFile thorough thr st f).permission_warnings = st.permission_warnings)
    ∧ analyze_files thorough thr st (f :: rest)
        = analyze_files thorough thr (processFile thorough thr st f) rest := by
  cases hs : f.statResult with
  | none => simp [processFile, analyze_files, preClassifyError, hs]
  | some mode =>
    cases hm : resolveMime thorough f with
    | none =>
      cases hw : analyze_file_permissions f.path mode <;>
        simp [processFile, analyze_files, preClassifyError, hs, hw, hm]
    | some mime =>
      cases h1 : f.sizeResult1 with
      | none =>
        cases hw : analyze_file_permissions f.path mode <;>
          simp [processFile, analyze_files, preClassifyError, hs, hw, hm, h1]
      | some sz1 =>
        cases h2 : f.sizeResult2 with
        | none =>
          cases hw : analyze_file_permissions f.path mode <;>
            simp [processFile, analyze_files, preClassifyError, hs, hw, hm, h1, h2]
        | some size2 => simp [fileError, hs, hm, h1, h2] at h

/-- C3 witness: a file whose `os.stat` raises adds exactly one error and
nothing else, and the loop goes on. -/
theorem c3_error_isolation_witness :
    (processFile false 1 (initState defaultConfig)
        { path := "/r/gone", statResult := none, magicResult := none,
          guessResult := none, sizeResult1 := none, sizeResult2 := none }).errors
      = (initState defaultConfig).errors + 1
    ∧ (processFile false 1 (initState defaultConfig)
        { path := "/r/gone", statResult := none, magicResult := none,
          guessResult := none, sizeResult1 := none, sizeResult2 := none }).bigfiles_storage
      = (initState defaultConfig).bigfiles_storage
    ∧ (preClassifyError false
        { path := "/r/gone", statResult := none, magicResult := none,
          guessResult := none, sizeResult1 := none, sizeResult2 := none } = false
        ∨ ((processFile false 1 (initState defaultConfig)
            { path := "/r/gone", statResult := none, magicResult := none,
              guessResult := none, sizeResult1 := none, sizeResult2 := none }).result_storages
              = (initState defaultConfig).result_storages
          ∧ (processFile false 1 (initState defaultConfig)
              { path := "/r/gone", statResult := none, magicResult := none,
                guessResult := none, sizeResult1 := none, sizeResult2 := none }).others_storage
              = (initState defaultConfig).others_storage
          ∧ (processFile false 1 (initState defaultConfig)
              { path := "/r/gone", statResult := none, magicResult := none,
                guessResult := none, sizeResult1 := none, sizeResult2 := none }).totals_storage
              = (initState defaultConfig).totals_storage))
    ∧ ((FileEntry.statResult
          { path := "/r/gone", statResult := none, magicResult := none,
            guessResult := none, sizeResult1 := none, sizeResult2 := none }).isSome = true
        ∨ (processFile false 1 (initState defaultConfig)
            { path := "/r/gone", statResult := none, magicResult := none,
              guessResult := none, sizeResult1 := none, sizeResult2 := none }).permission_warnings
          = (initState defaultConfig).permission_warnings)
    ∧ analyze_files false 1 (initState defaultConfig)
        ({ path := "/r/gone", statResult := none, magicResult := none,
           guessResult := none, sizeResult1 := none, sizeResult2 := none } :: [])
      = analyze_files false 1
          (processFile false 1 (initState defaultConfig)
            { path := "/r/gone", statResult := none, magicResult := none,
              guessResult := none, sizeResult1 := none, sizeResult2 := none }) [] :=
  c3_error_isolation false 1 (initState defaultConfig)
    { path := "/r/gone", statResult := none, magicResult := none,
      guessResult := none, sizeResult1 := none, sizeResult2 := none } [] (by decide)

/-- C4: on a file whose mode has at least two risky bits set, the inspector
returns exactly one warning, the one of the last-checked set bit in the order
world-writable → setuid → setgid; and a directory is only ever checked for
the world-writable bit, whatever its mode. -/
theorem c4_last_checked_bit (file_path : String) (mode : Nat)
    (dir_path : String) (dmode : Nat) (h : 2 ≤ riskyBitCount mode) :
    analyze_file_permissions file_path mode
        = some (spec_lastCheckedWarning file_path mode)
    ∧ analyze_dir_permissions dir_path dmode
        = (if dmode &&& S_IWOTH ≠ 0 then some (wwWarning dir_path) else none) := by
  refine ⟨?_, rfl⟩
  by_cases hw : mode &&& S_IWOTH = 0 <;> by_cases hu : mode &&& S_ISUID = 0 <;>
    by_cases hg : mode &&& S_ISGID = 0 <;>
      simp [riskyBitCount, hw, hu, hg] at h ⊢ <;>
        simp [analyze_file_permissions, spec_lastCheckedWarning, hw, hu, hg]

/-- C4 witness: mode 0o6002 (world-writable, setuid and setgid all set) yields
the single setgid warning; a directory with the same mode yields only the
world-writable warning. -/
theorem c4_last_checked_bit_witness :
    analyze_file_permissions "/r/f" 3074 = some (spec_lastCheckedWarning "/r/f" 3074)
    ∧ analyze_dir_permissions "/r/d" 3074
        = (if 3074 &&& S_IWOTH ≠ 0 then some (wwWarning "/r/d") else none) :=
  c4_last_checked_bit "/r/f" 3074 "/r/d" 3074 (by decide)

/-- C5: for a non-negative threshold in GiB, a file enters the oversized
bucket (counter, byte total and path list together) exactly when its byte
size strictly exceeds `threshold * 2^30`; a file of exactly the threshold is
not added, and with threshold 0 every file of positive size is added. -/
theorem c5_size_threshold (file_path : String) (file_size : Nat)
    (big : FiletypeInfoStorage) (thr : ℚ) (h : 0 ≤ thr) :
    (analyze_filesize file_path file_size big thr
        = { big with found_files := big.found_files + 1,
                     found_size := big.found_size + file_size,
                     found_files_paths := big.found_files_paths ++ [file_path] }
      ↔ (file_size : ℚ) > thr * 2 ^ 30)
    ∧ ((file_size : ℚ) = thr * 2 ^ 30 → analyze_filesize file_path file_size big thr = big)
    ∧ (thr = 0 → 0 < file_size →
        analyze_filesize file_path file_size big thr
          = { big with found_files := big.found_files + 1,
                       found_size := big.found_size + file_size,
                       found_files_paths := big.found_files_paths ++ [file_path] }) := by
  refine ⟨⟨fun heq => ?_, fun hgt => by rw [analyze_filesize, if_pos hgt]⟩, fun heq => ?_, fun h0 hpos => ?_⟩
  · by_contra hc
    rw [analyze_filesize, if_neg hc] at heq
    have hff := congrArg FiletypeInfoStorage.found_files heq
    simp at hff
  · rw [analyze_filesize, if_neg]
    rw [heq]
    exact lt_irrefl _
  · rw [analyze_filesize, if_pos]
    rw [h0]
    simpa using Nat.cast_pos.mpr hpos

/-- C5 witness: with threshold 0 GiB a 5-byte file is added to the oversized
bucket, and the three stated properties hold at that instance. -/
theorem c5_size_threshold_witness :
    (analyze_filesize "/r/f" 5 { tag := "None", displayable_name := "Big" } 0
        = { tag := "None", displayable_name := "Big", found_files := 0 + 1,
            found_size := 0 + 5, found_files_paths := [] ++ ["/r/f"] }
      ↔ ((5 : Nat) : ℚ) > 0 * 2 ^ 30)
    ∧ (((5 : Nat) : ℚ) = 0 * 2 ^ 30 →
        analyze_filesize "/r/f" 5 { tag := "None", displayable_name := "Big" } 0
          = { tag := "None", displayable_name := "Big" })
    ∧ ((0 : ℚ) = 0 → 0 < 5 →
        analyze_filesize "/r/f" 5 { tag := "None", displayable_name := "Big" } 0
          = { tag := "None", displayable_name := "Big", found_files := 0 + 1,
              found_size := 0 + 5, found_files_paths := [] ++ ["/r/f"] }) :=
  c5_size_threshold "/r/f" 5 { tag := "None", displayable_name := "Big" } 0 (by norm_num)

/-- C6 counterexample: the configuration schema allows a category whose
prefix is the empty string, and `"".startswith("")` is true in Python, so a
fast-mode file with unknown extension (empty mimetype) is counted in such a
category and not in `other`, contradicting the claim as stated: one scan of
one such file puts it in the configured category and leaves `other` at 0. -/
theorem c6_empty_mime_counterexample :
    ((analyze_filesystem [("CatchAll", "")] false 1
        [{ dirs := [],
           files := [{ path := "/r/noext", statResult := some 420, magicResult := none,
                       guessResult := none, sizeResult1 := some 7,
                       sizeResult2 := some 7 }] }]).result_storages.map
      FiletypeInfoStorage.found_files) = [1]
    ∧ (analyze_filesystem [("CatchAll", "")] false 1
        [{ dirs := [],
           files := [{ path := "/r/noext", statResult := some 420, magicResult := none,
                       guessResult := none, sizeResult1 := some 7,
                       sizeResult2 := some 7 }] }]).others_storage.found_files = 0 := by
  constructor <;> rfl

/-- C6 (amended): a file whose resolved mimetype is the empty string is never
counted in a configured category whose prefix is nonempty; when every
configured prefix is nonempty it always lands in `other` (and totals). -/
theorem c6_empty_mime_lands_in_other (file_size : Nat)
    (result_storages : List FiletypeInfoStorage) (others totals : FiletypeInfoStorage)
    (h : ∀ s ∈ result_storages, s.tag ≠ "") :
    analyze_files_mimetype "" file_size result_storages others totals
      = (result_storages, addFile others file_size, addFile totals file_size) := by
  have hb := bucket_no_match "" file_size result_storages
    (fun s hs => tagMatch_empty_eq_false s.tag (h s hs))
  simp [analyze_files_mimetype, hb]

/-- C6 witness: with the default (nonempty) prefixes, an empty mimetype goes
to `other`. -/
theorem c6_empty_mime_lands_in_other_witness :
    analyze_files_mimetype "" 7 (initStorages defaultConfig)
        { tag := "None", displayable_name := "Other" }
        { tag := "None", displayable_name := "Total" }
      = (initStorages defaultConfig,
         addFile { tag := "None", displayable_name := "Other" } 7,
         addFile { tag := "None", displayable_name := "Total" } 7) :=
  c6_empty_mime_lands_in_other 7 (initStorages defaultConfig)
    { tag := "None", displayable_name := "Other" }
    { tag := "None", displayable_name := "Total" } (by decide)

/-- C7: an invocation whose root path does not exist, or is not a directory,
or whose size threshold is negative, terminates before any traversal with a
visible error message and writes none of the output files — but the process
exit code is 0, because `typer.Exit()` is raised without a code and its
default exit code is 0 (the spec requires non-zero; the code is a slip). -/
theorem c7_validation_exits_with_code_zero :
    mainModel false true defaultConfig false false 1 []
      = { exit_code := 0, error_message := some "Incorrect path - does not exist",
          traversed := false, wrote_report_file := false, wrote_bigfiles_file := false,
          wrote_permissions_file := false, scan := none }
    ∧ mainModel true false defaultConfig false false 1 []
      = { exit_code := 0, error_message := some "Incorrect path - should be a directory",
          traversed := false, wrote_report_file := false, wrote_bigfiles_file := false,
          wrote_permissions_file := false, scan := none }
    ∧ mainModel true true defaultConfig false false (-1) []
      = { exit_code := 0,
          error_message := some "Incorrect size threshold - should not be negative",
          traversed := false, wrote_report_file := false, wrote_bigfiles_file := false,
          wrote_permissions_file := false, scan := none } := by
  refine ⟨rfl, rfl, ?_⟩
  have hneg : ((-1 : ℚ) < 0) := by norm_num
  simp [mainModel, check_path, check_size_threshold, hneg]

/-- C8 counterexample: a root directory that exists but cannot be listed is
silently ignored by `os.walk` (default `onerror=None`), so the scan of a tree
whose unreadable root contains a file completes normally with the initial
empty result and an error count of 0 — no error surfaces to the caller,
contradicting the claim that this is fatal. -/
theorem c8_root_counterexample :
    analyze_filesystem defaultConfig false 1
        (FSTree.walk (FSTree.dir { path := "/r", statResult := some 493 } false []
          [{ path := "/r/f.txt", statResult := some 420, magicResult := some "text/plain",
             guessResult := some "text/plain", sizeResult1 := some 16,
             sizeResult2 := some 16 }]))
      = initState defaultConfig
    ∧ (initState defaultConfig).errors = 0
    ∧ (initState defaultConfig).totals_storage.found_files = 0 := by
  have hw : ∀ (d : DirEntry) (files : List FileEntry),
      FSTree.walk (FSTree.dir d false [] files) = [] := by
    intro d files
    simp [FSTree.walk]
  refine ⟨?_, rfl, rfl⟩
  rw [hw]
  rfl

/-- C8 (amended): a failure to traverse the root itself is not fatal and
surfaces no error: the walk yields no triples and the scan returns the
initial state with zero errors; and per-entry failures below the root never
abort the walk — the loop always continues with the remaining triples. -/
theorem c8_root_unreadable_not_fatal (cfg : List (String × String)) (thorough : Bool)
    (thr : ℚ) (t : FSTree) (st : ScanState) (tri : WalkTriple)
    (rest : List WalkTriple) (h : t.readable = false) :
    t.walk = []
    ∧ analyze_filesystem cfg thorough thr t.walk = initState cfg
    ∧ (analyze_filesystem cfg thorough thr t.walk).errors = 0
    ∧ List.foldl (processTriple thorough thr) st (tri :: rest)
        = List.foldl (processTriple thorough thr) (processTriple thorough thr st tri) rest := by
  have hw : t.walk = [] := by
    cases t with
    | dir d r subs files =>
      simp only [FSTree.readable] at h
      simp [FSTree.walk, h]
  rw [hw]
  exact ⟨rfl, rfl, rfl, rfl⟩

/-- C8 witness: concrete unreadable root with one file inside. -/
theorem c8_root_unreadable_not_fatal_witness :
    FSTree.walk (FSTree.dir { path := "/r", statResult := some 493 } false []
        [{ path := "/r/f.txt", statResult := some 420, magicResult := some "text/plain",
           guessResult := some "text/plain", sizeResult1 := some 16,
           sizeResult2 := some 16 }]) = []
    ∧ analyze_filesystem defaultConfig false 1
        (FSTree.walk (FSTree.dir { path := "/r", statResult := some 493 } false []
          [{ path := "/r/f.txt", statResult := some 420, magicResult := some "text/plain",
             guessResult := some "text/plain", sizeResult1 := some 16,
             sizeResult2 := some 16 }])) = initState defaultConfig
    ∧ (analyze_filesystem defaultConfig false 1
        (FSTree.walk (FSTree.dir { path := "/r", statResult := some 493 } false []
          [{ path := "/r/f.txt", statResult := some 420, magicResult := some "text/plain",
             guessResult := some "text/plain", sizeResult1 := some 16,
             sizeResult2 := some 16 }]))).errors = 0
    ∧ List.foldl (processTriple false 1) (initState defaultConfig)
        ({ dirs := [], files := [] } :: [])
        = List.foldl (processTriple false 1)
            (processTriple false 1 (initState defaultConfig) { dirs := [], files := [] }) [] :=
  c8_root_unreadable_not_fatal defaultConfig false 1
    (FSTree.dir { path := "/r", statResult := some 493 } false []
      [{ path := "/r/f.txt", statResult := some 420, magicResult := some "text/plain",
         guessResult := some "text/plain", sizeResult1 := some 16,
         sizeResult2 := some 16 }])
    (initState defaultConfig) { dirs := [], files := [] } [] rfl

/-- C9: the category counters of the result keep the configuration insertion
order (names and prefixes), and both the permission-warning list and the
oversized-path list are exactly the per-entry contributions concatenated in
visitation order of the walk output, never reordered. -/
theorem c9_visitation_order (cfg : List (String × String)) (thorough : Bool) (thr : ℚ)
    (walk_output : List WalkTriple) :
    (analyze_filesystem cfg thorough thr walk_output).result_storages.map
        FiletypeInfoStorage.displayable_name = cfg.map Prod.fst
    ∧ (analyze_filesystem cfg thorough thr walk_output).result_storages.map
        FiletypeInfoStorage.tag = cfg.map Prod.snd
    ∧ (analyze_filesystem cfg thorough thr walk_output).permission_warnings
        = (walk_output.map specWarningsOfTriple).flatten
    ∧ (analyze_filesystem cfg thorough thr walk_output).bigfiles_storage.found_files_paths
        = (oversizedPairs thorough thr walk_output).map Prod.fst := by
  refine ⟨scan_names cfg thorough thr walk_output, scan_tags cfg thorough thr walk_output,
    scan_warnings cfg thorough thr walk_output, ?_⟩
  rw [scan_big]
  simp [pushBig, initState]

/-- C10: the oversized bucket is always coherent: its file counter equals the
length of its path list, its byte total is the sum of the recorded sizes of
exactly those files, and no other storage (categories, `other`, totals) ever
accumulates paths. -/
theorem c10_big_bucket_coherent (cfg : List (String × String)) (thorough : Bool)
    (thr : ℚ) (walk_output : List WalkTriple) :
    (analyze_filesystem cfg thorough thr walk_output).bigfiles_storage.found_files
        = (analyze_filesystem cfg thorough thr walk_output).bigfiles_storage.found_files_paths.length
    ∧ (analyze_filesystem cfg thorough thr walk_output).bigfiles_storage.found_files_paths
        = (oversizedPairs thorough thr walk_output).map Prod.fst
    ∧ (analyze_filesystem cfg thorough thr walk_output).bigfiles_storage.found_size
        = ((oversizedPairs thorough thr walk_output).map Prod.snd).sum
    ∧ (analyze_filesystem cfg thorough thr walk_output).others_storage.found_files_paths = []
    ∧ (analyze_filesystem cfg thorough thr walk_output).totals_storage.found_files_paths = []
    ∧ ∀ s ∈ (analyze_filesystem cfg thorough thr walk_output).result_storages,
        s.found_files_paths = [] := by
  refine ⟨?_, ?_, ?_, scan_othersPaths cfg thorough thr walk_output,
    scan_totalsPaths cfg thorough thr walk_output, scan_catPaths cfg thorough thr walk_output⟩
    <;> rw [scan_big] <;> simp [pushBig, initState]

end FolderAnalyser
